import Mathlib

/-!
Verification of the Math Sprint game (`src/Math.py`).

Modelling conventions:
* Python `float` quantities (latencies, bonuses, multipliers) are modelled as
  exact rationals `ℚ`; the literals `0.10`, `0.5`, `5.0`, `150.0` become the
  rationals `1/10`, `1/2`, `5`, `150`.
* Python's builtin `round` (banker's rounding, round half to even) is
  modelled by `roundHalfToEven`.  `int(round(x))` on a float that is already
  an integral value is the identity, so `int(round(...))` is modelled as
  `roundHalfToEven` alone.
* Python's builtin `int(...)` applied to an arbitrary JSON-decoded value is
  modelled by `pyIntOfJson`; a `none` result models the `TypeError` /
  `ValueError` the builtin raises.  Underscore digit separators and exotic
  unicode whitespace accepted by `int(str)` are not modelled; this only
  narrows the set of strings that parse and is irrelevant to the claims.
* File I/O is modelled by the `FileContent` state: `missing` (open raises),
  `malformed` (json.load raises) or `json v`.  A successful write is
  modelled by returning the new `FileContent`; `save_highscore` swallows
  write failures, which leave the file unchanged.
* The round loop's interaction with the outside world (clock readings from
  `time.perf_counter`, random draws, one line of input per question, a
  possible `KeyboardInterrupt` while blocked in `input()`) is modelled by a
  list of `Step` records consumed one per loop iteration.
-/

namespace MathSprint

/-- Python's builtin `round` on a rational: round to the nearest integer,
ties to the even integer (banker's rounding). -/
def roundHalfToEven (x : ℚ) : ℤ :=
  if x - ⌊x⌋ < 1 / 2 then ⌊x⌋
  else if 1 / 2 < x - ⌊x⌋ then ⌊x⌋ + 1
  else if ⌊x⌋ % 2 = 0 then ⌊x⌋ else ⌊x⌋ + 1

/-- The `Difficulty` dataclass of `Math.py`. -/
structure Difficulty where
  name : String
  n_min : ℤ
  n_max : ℤ
  ops : List String
  round_seconds : ℤ

/-- The fixed `DIFFICULTIES` catalog of `Math.py`. -/
def DIFFICULTIES : List Difficulty :=
  [⟨"Easy", 0, 10, ["+", "-"], 60⟩,
   ⟨"Normal", 1, 20, ["+", "-", "*"], 75⟩,
   ⟨"Hard", 2, 50, ["+", "-", "*", "÷"], 90⟩,
   ⟨"Insane", 5, 120, ["+", "-", "*", "÷", "+"], 120⟩]

/-- The `speed_bonus` local of `points_for`:
`max(0.0, 150.0 * (1.0 - min(answer_time, 5.0) / 5.0))`. -/
def speed_bonus (answer_time : ℚ) : ℚ :=
  max 0 (150 * (1 - min answer_time 5 / 5))

/-- The `streak_bonus_mult` local of `points_for`:
`1.0 + min(0.5, 0.10 * streak)`. -/
def streak_bonus_mult (streak : ℕ) : ℚ :=
  1 + min (1 / 2) (1 / 10 * (streak : ℚ))

/-- `points_for(answer_time, correct, streak)` of `Math.py`:
`0` when not correct, otherwise `int(round((100 + speed_bonus) * streak_bonus_mult))`. -/
def points_for (answer_time : ℚ) (correct : Bool) (streak : ℕ) : ℤ :=
  match correct with
  | false => 0
  | true => roundHalfToEven ((100 + speed_bonus answer_time) * streak_bonus_mult streak)

theorem roundHTE_near (x : ℚ) : |(roundHalfToEven x : ℚ) - x| ≤ 1 / 2 := by
  have h1 : (⌊x⌋ : ℚ) ≤ x := Int.floor_le x
  have h2 : x < ⌊x⌋ + 1 := Int.lt_floor_add_one x
  unfold roundHalfToEven
  split_ifs with ha hb hc
  all_goals rw [abs_le]; constructor <;> push_cast <;> linarith

theorem roundHTE_mono {x y : ℚ} (hxy : x ≤ y) :
    roundHalfToEven x ≤ roundHalfToEven y := by
  by_contra hcon
  push_neg at hcon
  have hx := roundHTE_near x
  have hy := roundHTE_near y
  rw [abs_le] at hx hy
  have hstep : (roundHalfToEven y : ℚ) + 1 ≤ (roundHalfToEven x : ℚ) := by
    exact_mod_cast hcon
  have hyx : y ≤ x := by linarith [hx.1, hx.2, hy.1, hy.2]
  have hxy2 : x = y := le_antisymm hxy hyx
  rw [hxy2] at hcon
  exact lt_irrefl _ hcon

/-- C1: `points_for(t, false, s) = 0`; `points_for(t, true, s)` is a nearest
integer to `(100 + max(0, 150*(1 - min(t,5)/5))) * (1 + min(0.5, 0.10*s))`;
the speed bonus is `150` at `t = 0`, is `0` for every `t ≥ 5`, and is never
negative. -/
theorem claim_C1 (t : ℚ) (s : ℕ) (ht : 0 ≤ t) :
    points_for t false s = 0 ∧
    |(points_for t true s : ℚ) -
        (100 + max 0 (150 * (1 - min t 5 / 5))) * (1 + min (1 / 2) (1 / 10 * (s : ℚ)))| ≤ 1 / 2 ∧
    speed_bonus 0 = 150 ∧
    (5 ≤ t → speed_bonus t = 0) ∧
    0 ≤ speed_bonus t := by
  refine ⟨rfl, ?_, ?_, ?_, le_max_left 0 _⟩
  · exact roundHTE_near ((100 + speed_bonus t) * streak_bonus_mult s)
  · unfold speed_bonus
    rw [min_eq_left (by norm_num : (0 : ℚ) ≤ 5)]
    norm_num
  · intro h5
    unfold speed_bonus
    rw [min_eq_right h5]
    norm_num

theorem claim_C1_witness :
    (0 : ℚ) ≤ 1 ∧
    (points_for 1 false 2 = 0 ∧
     |(points_for 1 true 2 : ℚ) -
        (100 + max 0 (150 * (1 - min 1 5 / 5))) *
          (1 + min (1 / 2) (1 / 10 * ((2 : ℕ) : ℚ)))| ≤ 1 / 2 ∧
     speed_bonus 0 = 150 ∧
     ((5 : ℚ) ≤ 1 → speed_bonus 1 = 0) ∧
     0 ≤ speed_bonus 1) :=
  ⟨by norm_num, claim_C1 1 2 (by norm_num)⟩

/-- C7: for every streak `s ≥ 5` the streak multiplier equals exactly `3/2`,
so `points_for t true s = points_for t true 5`. -/
theorem claim_C7 (t : ℚ) (s : ℕ) (hs : 5 ≤ s) :
    streak_bonus_mult s = 3 / 2 ∧ points_for t true s = points_for t true 5 := by
  have hcast : (5 : ℚ) ≤ (s : ℚ) := by exact_mod_cast hs
  have hmin : min ((1 : ℚ) / 2) (1 / 10 * (s : ℚ)) = 1 / 2 := by
    apply min_eq_left
    linarith
  have h1 : streak_bonus_mult s = 3 / 2 := by
    unfold streak_bonus_mult
    rw [hmin]
    norm_num
  have h5 : streak_bonus_mult 5 = 3 / 2 := by
    unfold streak_bonus_mult
    norm_num
  refine ⟨h1, ?_⟩
  show roundHalfToEven ((100 + speed_bonus t) * streak_bonus_mult s) =
      roundHalfToEven ((100 + speed_bonus t) * streak_bonus_mult 5)
  rw [h1, h5]

theorem claim_C7_witness :
    (5 : ℕ) ≤ 7 ∧
    (streak_bonus_mult 7 = 3 / 2 ∧ points_for 2 true 7 = points_for 2 true 5) :=
  ⟨by norm_num, claim_C7 2 7 (by norm_num)⟩

/-- C8: for a fixed streak and a correct answer, `points_for` is
non-increasing in the latency. -/
theorem claim_C8 (s : ℕ) (t1 t2 : ℚ) (h : t1 ≤ t2) :
    points_for t2 true s ≤ points_for t1 true s := by
  have hmin : min t1 5 ≤ min t2 5 := min_le_min h le_rfl
  have hsb : speed_bonus t2 ≤ speed_bonus t1 := by
    unfold speed_bonus
    apply max_le_max le_rfl
    linarith
  have hm : 0 ≤ streak_bonus_mult s := by
    unfold streak_bonus_mult
    have h0 : (0 : ℚ) ≤ min (1 / 2) (1 / 10 * (s : ℚ)) :=
      le_min (by norm_num) (by positivity)
    linarith
  show roundHalfToEven ((100 + speed_bonus t2) * streak_bonus_mult s) ≤
      roundHalfToEven ((100 + speed_bonus t1) * streak_bonus_mult s)
  exact roundHTE_mono (mul_le_mul_of_nonneg_right (by linarith) hm)

theorem claim_C8_witness :
    (1 : ℚ) ≤ 2 ∧ points_for 2 true 1 ≤ points_for 1 true 1 :=
  ⟨by norm_num, claim_C8 1 1 2 (by norm_num)⟩

/-- The random draws one call of `make_problem` may consume: the operator
chosen by `random.choice(d.ops)`, the two operands `a` and `b` from
`random.randint(d.n_min, d.n_max)`, and — used only in the division branch —
the re-drawn divisor `b = random.randint(max(1, d.n_min), max(1, d.n_max))`
and the drawn quotient `ans = random.randint(d.n_min, d.n_max)`. -/
structure RandDraws where
  op : String
  a : ℤ
  b : ℤ
  div_b : ℤ
  div_ans : ℤ

/-- The ranges `random.choice` / `random.randint` guarantee for the draws of
one `make_problem` call on difficulty `d`. -/
def RandDraws.valid (r : RandDraws) (d : Difficulty) : Prop :=
  r.op ∈ d.ops ∧
  d.n_min ≤ r.a ∧ r.a ≤ d.n_max ∧
  d.n_min ≤ r.b ∧ r.b ≤ d.n_max ∧
  max 1 d.n_min ≤ r.div_b ∧ r.div_b ≤ max 1 d.n_max ∧
  d.n_min ≤ r.div_ans ∧ r.div_ans ≤ d.n_max

/-- `make_problem(d)` of `Math.py`, with the random draws passed explicitly. -/
def make_problem (d : Difficulty) (r : RandDraws) : String × ℤ :=
  if r.op = "+" then (toString r.a ++ " + " ++ toString r.b, r.a + r.b)
  else if r.op = "-" then
    (toString (max r.a r.b) ++ " - " ++ toString (min r.a r.b), max r.a r.b - min r.a r.b)
  else if r.op = "*" then (toString r.a ++ " × " ++ toString r.b, r.a * r.b)
  else if r.op = "÷" then
    (toString (r.div_ans * r.div_b) ++ " ÷ " ++ toString r.div_b, r.div_ans)
  else (toString r.a ++ " + " ++ toString r.b, r.a + r.b)

/-- C5: a division problem has divisor ≥ 1, its dividend is an exact multiple
of the divisor, dividend / divisor is the stored answer, and the displayed
dividend is `correctAnswer × divisor`. -/
theorem claim_C5 (d : Difficulty) (r : RandDraws) (hle : d.n_min ≤ d.n_max)
    (hv : r.valid d) (hop : r.op = "÷") :
    1 ≤ r.div_b ∧
    (r.div_ans * r.div_b) % r.div_b = 0 ∧
    (r.div_ans * r.div_b) / r.div_b = r.div_ans ∧
    make_problem d r =
      (toString (r.div_ans * r.div_b) ++ " ÷ " ++ toString r.div_b, r.div_ans) := by
  obtain ⟨-, -, -, -, -, hb1, -, -, -⟩ := hv
  have hb : 1 ≤ r.div_b := le_trans (le_max_left 1 d.n_min) hb1
  have hbne : r.div_b ≠ 0 := by omega
  refine ⟨hb, Int.mul_emod_left _ _, Int.mul_ediv_cancel _ hbne, ?_⟩
  unfold make_problem
  rw [hop, if_neg (by decide), if_neg (by decide), if_neg (by decide), if_pos rfl]

/-- The `Hard` entry of the catalog, used as a concrete input. -/
def dHard : Difficulty := ⟨"Hard", 2, 50, ["+", "-", "*", "÷"], 90⟩

/-- A concrete set of division draws in range for `dHard`. -/
def rDiv : RandDraws := ⟨"÷", 3, 4, 5, 6⟩

theorem claim_C5_witness :
    dHard.n_min ≤ dHard.n_max ∧ rDiv.valid dHard ∧ rDiv.op = "÷" ∧
    (1 ≤ rDiv.div_b ∧
     (rDiv.div_ans * rDiv.div_b) % rDiv.div_b = 0 ∧
     (rDiv.div_ans * rDiv.div_b) / rDiv.div_b = rDiv.div_ans ∧
     make_problem dHard rDiv =
       (toString (rDiv.div_ans * rDiv.div_b) ++ " ÷ " ++ toString rDiv.div_b, rDiv.div_ans)) :=
  ⟨by decide, by unfold RandDraws.valid ; decide, rfl,
   claim_C5 dHard rDiv (by decide) (by unfold RandDraws.valid ; decide) rfl⟩

/-- ASCII whitespace stripped by `str.strip()` / ignored by `int(str)`. -/
def pySpace (c : Char) : Bool :=
  c = ' ' ∨ c = '\t' ∨ c = '\n' ∨ c = '\r'

/-- Python's builtin `int` applied to a string: optional surrounding
whitespace, optional sign, then a non-empty run of decimal digits; anything
else raises `ValueError`, modelled as `none`. -/
def pyStrToInt (str : String) : Option ℤ :=
  let cs := ((str.data.dropWhile pySpace).reverse.dropWhile pySpace).reverse
  let signed : ℤ × List Char :=
    match cs with
    | '-' :: rest => (-1, rest)
    | '+' :: rest => (1, rest)
    | _ => (1, cs)
  if signed.2 ≠ [] ∧ signed.2.all Char.isDigit then
    some (signed.1 * signed.2.foldl (fun acc c => 10 * acc + ((c.toNat : ℤ) - 48)) 0)
  else none

/-- A JSON value as decoded by Python's `json.load`: object keys are strings,
values are arbitrary JSON values; numbers decode to `int` or `float`. -/
inductive JVal where
  | null : JVal
  | boolVal : Bool → JVal
  | intVal : ℤ → JVal
  | floatVal : ℚ → JVal
  | strVal : String → JVal
  | arrVal : List JVal → JVal
  | objVal : List (String × JVal) → JVal

/-- Python's builtin `int` applied to a JSON-decoded value: floats truncate
toward zero, bools become 0/1, strings parse as integer literals; `null`,
lists and dicts raise `TypeError`, modelled as `none`. -/
def pyIntOfJson : JVal → Option ℤ
  | JVal.null => none
  | JVal.boolVal b => some (if b then 1 else 0)
  | JVal.intVal n => some n
  | JVal.floatVal q => some (if 0 ≤ q then ⌊q⌋ else -⌊-q⌋)
  | JVal.strVal str => pyStrToInt str
  | JVal.arrVal _ => none
  | JVal.objVal _ => none

/-- The state of the high-score file: `missing` (open raises `OSError`),
`malformed` (`json.load` raises), or a decoded JSON value. -/
inductive FileContent where
  | missing : FileContent
  | malformed : FileContent
  | json : JVal → FileContent

/-- `load_highscore()` of `Math.py`: any read or decode failure, and any
decoded value that is not a dict, yields the empty record. -/
def load_highscore : FileContent → List (String × JVal)
  | FileContent.missing => []
  | FileContent.malformed => []
  | FileContent.json (JVal.objVal kvs) => kvs
  | FileContent.json _ => []

/-- Python dict assignment `hs[k] = v` on the association-list model:
replace the entry for `k`, appending a new entry when `k` is absent. -/
def dict_set : List (String × JVal) → String → JVal → List (String × JVal)
  | [], k, v => [(k, v)]
  | (k', v') :: rest, k, v =>
    if k' = k then (k, v) :: rest else (k', v') :: dict_set rest k v

/-- `save_highscore(best)` of `Math.py`, successful-write path: the file now
holds the serialized record.  (A write failure is swallowed by the source
and leaves the file unchanged; no claim depends on that path.) -/
def save_highscore (best : List (String × JVal)) : FileContent :=
  FileContent.json (JVal.objVal best)

/-- `maybe_update_highscore(diff_name, score)` of `Math.py`, with the file
state passed and returned explicitly.  `none` models the uncaught exception
raised by `int(hs.get(diff_name, 0))` on a non-numeric stored value. -/
def maybe_update_highscore (diff_name : String) (score : ℤ) (fc : FileContent) :
    Option ((Bool × ℤ) × FileContent) :=
  let hs := load_highscore fc
  match pyIntOfJson ((List.lookup diff_name hs).getD (JVal.intVal 0)) with
  | none => none
  | some best =>
    if best < score then
      some ((true, score), save_highscore (dict_set hs diff_name (JVal.intVal score)))
    else
      some ((false, best), fc)

theorem lookup_map_intVal (hs : List (String × ℤ)) (name : String) :
    List.lookup name (hs.map fun p => (p.1, JVal.intVal p.2)) =
      (List.lookup name hs).map JVal.intVal := by
  induction hs with
  | nil => rfl
  | cons p rest ih =>
    obtain ⟨k, v⟩ := p
    cases hb : name == k <;> simp [List.lookup, hb, ih]

/-- C2: on a record of integer scores, `maybe_update_highscore` writes the
updated record and returns `(true, score)` when `score > currentBest`
(default 0 when the name is absent), and otherwise returns
`(false, currentBest)` leaving the file unchanged. -/
theorem claim_C2 (hs : List (String × ℤ)) (name : String) (score : ℤ) :
    ((List.lookup name hs).getD 0 < score →
      maybe_update_highscore name score
          (FileContent.json (JVal.objVal (hs.map fun p => (p.1, JVal.intVal p.2)))) =
        some ((true, score),
          FileContent.json (JVal.objVal
            (dict_set (hs.map fun p => (p.1, JVal.intVal p.2)) name (JVal.intVal score))))) ∧
    (¬ (List.lookup name hs).getD 0 < score →
      maybe_update_highscore name score
          (FileContent.json (JVal.objVal (hs.map fun p => (p.1, JVal.intVal p.2)))) =
        some ((false, (List.lookup name hs).getD 0),
          FileContent.json (JVal.objVal (hs.map fun p => (p.1, JVal.intVal p.2))))) := by
  have hbest : pyIntOfJson
      ((List.lookup name (hs.map fun p => (p.1, JVal.intVal p.2))).getD (JVal.intVal 0)) =
      some ((List.lookup name hs).getD 0) := by
    rw [lookup_map_intVal]
    cases List.lookup name hs <;> simp [pyIntOfJson]
  constructor <;> intro h <;>
    simp [maybe_update_highscore, load_highscore, save_highscore, hbest, h]

theorem claim_C2_witness :
    (((List.lookup "Easy" ([] : List (String × ℤ))).getD 0 < 500 ∧
      maybe_update_highscore "Easy" 500
          (FileContent.json (JVal.objVal
            (([] : List (String × ℤ)).map fun p => (p.1, JVal.intVal p.2)))) =
        some ((true, 500),
          FileContent.json (JVal.objVal
            (dict_set (([] : List (String × ℤ)).map fun p => (p.1, JVal.intVal p.2))
              "Easy" (JVal.intVal 500))))) ∧
     (¬ (List.lookup "Easy" [("Easy", (500 : ℤ))]).getD 0 < 300 ∧
      maybe_update_highscore "Easy" 300
          (FileContent.json (JVal.objVal
            ([("Easy", (500 : ℤ))].map fun p => (p.1, JVal.intVal p.2)))) =
        some ((false, (List.lookup "Easy" [("Easy", (500 : ℤ))]).getD 0),
          FileContent.json (JVal.objVal
            ([("Easy", (500 : ℤ))].map fun p => (p.1, JVal.intVal p.2)))))) :=
  ⟨⟨by decide, (claim_C2 [] "Easy" 500).1 (by decide)⟩,
   ⟨by decide, (claim_C2 [("Easy", 500)] "Easy" 300).2 (by decide)⟩⟩

/-- C3 is wrong about the code: `load_highscore` does return the decoded
record without raising on the file content `{"Easy": null}`, but the
high-score comparison then crashes — `int(hs.get("Easy", 0))` is `int(None)`,
which raises `TypeError` (modelled by the `none` result). -/
theorem claim_C3_bug :
    load_highscore (FileContent.json (JVal.objVal [("Easy", JVal.null)])) =
      [("Easy", JVal.null)] ∧
    maybe_update_highscore "Easy" 100
        (FileContent.json (JVal.objVal [("Easy", JVal.null)])) = none :=
  ⟨rfl, rfl⟩

/-- C4 as stated is false at score 0: with the name absent, the stored best
defaults to 0 and the source requires `score > best`, so a new score of 0 is
reported as no improvement and nothing is written. -/
theorem claim_C4_counterexample :
    maybe_update_highscore "Easy" 0 (FileContent.json (JVal.objVal [])) =
      some ((false, 0), FileContent.json (JVal.objVal [])) :=
  rfl

/-- C4 amended: when the difficulty name is absent, `maybe_update_highscore`
writes the score and reports an improvement exactly when the score is
strictly positive; for a score ≤ 0 it returns `(false, 0)` without writing. -/
theorem claim_C4_amended (kvs : List (String × JVal)) (name : String) (score : ℤ)
    (habs : List.lookup name kvs = none) :
    (0 < score →
      maybe_update_highscore name score (FileContent.json (JVal.objVal kvs)) =
        some ((true, score),
          FileContent.json (JVal.objVal (dict_set kvs name (JVal.intVal score))))) ∧
    (¬ 0 < score →
      maybe_update_highscore name score (FileContent.json (JVal.objVal kvs)) =
        some ((false, 0), FileContent.json (JVal.objVal kvs))) := by
  constructor <;> intro h <;>
    simp [maybe_update_highscore, load_highscore, save_highscore, habs, pyIntOfJson, h]

theorem claim_C4_witness :
    List.lookup "Easy" [("Hard", JVal.intVal 7)] = none ∧ (0 : ℤ) < 500 ∧
    maybe_update_highscore "Easy" 500
        (FileContent.json (JVal.objVal [("Hard", JVal.intVal 7)])) =
      some ((true, 500),
        FileContent.json (JVal.objVal
          (dict_set [("Hard", JVal.intVal 7)] "Easy" (JVal.intVal 500)))) :=
  ⟨rfl, by decide,
   (claim_C4_amended [("Hard", JVal.intVal 7)] "Easy" 500 rfl).1 (by decide)⟩

/-- One iteration's interaction with the environment in `game_round`:
the clock readings taken (loop check, `remaining`, `t0`, `t1`), the random
draws consumed by `make_problem`, and the input line — `none` models a
`KeyboardInterrupt` delivered while blocked in `input()`, in which case `t1`
is never read and the iteration records nothing. -/
structure Step where
  t_loop : ℚ
  t_rem : ℚ
  draws : RandDraws
  t0 : ℚ
  input : Option String
  t1 : ℚ

/-- The correctness judgement of `game_round`: `int(user_in)` compared to the
generated answer; a `ValueError` means incorrect.  (`user_in` is already
`.strip()`-ed in the source; `int(str)` ignores surrounding whitespace, so
applying `pyStrToInt` directly is equivalent.) -/
def answer_correct (d : Difficulty) (r : RandDraws) (user_in : String) : Bool :=
  match pyStrToInt user_in with
  | some v => decide (v = (make_problem d r).2)
  | none => false

/-- The `while` loop of `game_round`, over the explicit environment trace.
State: accumulated `score`, `asked`, `streak`, `times`.  An exhausted trace
or a failed deadline check ends the round normally; an interrupt
(`input = none`) ends it via the `KeyboardInterrupt` handler with the
accumulators as they stand. -/
def run_loop (d : Difficulty) (end_time : ℚ) :
    List Step → ℤ → ℕ → ℕ → List ℚ → ℤ × ℕ × List ℚ
  | [], score, asked, _streak, times => (score, asked, times)
  | s :: rest, score, asked, streak, times =>
    if s.t_loop < end_time then
      match s.input with
      | none => (score, asked, times)
      | some user_in =>
        if answer_correct d s.draws user_in then
          run_loop d end_time rest
            (score + points_for (s.t1 - s.t0) true (streak + 1))
            (asked + 1) (streak + 1) (times ++ [s.t1 - s.t0])
        else
          run_loop d end_time rest score (asked + 1) 0 (times ++ [s.t1 - s.t0])
    else (score, asked, times)

/-- `game_round(d)` of `Math.py`: `end_time` is the first clock reading `c0`
plus `d.round_seconds`; score, asked count and streak start at zero with an
empty latency list. -/
def game_round (d : Difficulty) (c0 : ℚ) (steps : List Step) : ℤ × ℕ × List ℚ :=
  run_loop d (c0 + (d.round_seconds : ℚ)) steps 0 0 0 []

/-- Successive `time.perf_counter()` readings are non-decreasing, starting
from the reading `c` taken just before the trace. -/
def clock_ok : ℚ → List Step → Prop
  | _, [] => True
  | c, s :: rest =>
    c ≤ s.t_loop ∧ s.t_loop ≤ s.t_rem ∧ s.t_rem ≤ s.t0 ∧ s.t0 ≤ s.t1 ∧ clock_ok s.t1 rest

/-- C6: a correct answer increments the streak first and is scored by
`points_for` at the post-increment streak, that result being added to the
score; the streak multiplier at streak 1, the first correct answer of a
round, is `11/10`. -/
theorem claim_C6 (d : Difficulty) (end_time : ℚ) (s : Step) (rest : List Step)
    (score : ℤ) (asked streak : ℕ) (times : List ℚ) (line : String)
    (hlt : s.t_loop < end_time) (hin : s.input = some line)
    (hc : pyStrToInt line = some (make_problem d s.draws).2) :
    run_loop d end_time (s :: rest) score asked streak times =
      run_loop d end_time rest
        (score + points_for (s.t1 - s.t0) true (streak + 1))
        (asked + 1) (streak + 1) (times ++ [s.t1 - s.t0]) ∧
    streak_bonus_mult 1 = 11 / 10 := by
  constructor
  · have hcor : answer_correct d s.draws line = true := by
      simp [answer_correct, hc]
    simp [run_loop, hlt, hin, hcor]
  · unfold streak_bonus_mult
    norm_num

/-- The `Easy` entry of the catalog, used as a concrete input. -/
def dEasy : Difficulty := ⟨"Easy", 0, 10, ["+", "-"], 60⟩

/-- A concrete first iteration: problem `2 + 3`, answered `"5"` after one
second. -/
def stepPlus : Step := ⟨1, 2, ⟨"+", 2, 3, 0, 0⟩, 3, some "5", 4⟩

theorem claim_C6_witness :
    stepPlus.t_loop < 60 ∧ stepPlus.input = some "5" ∧
    pyStrToInt "5" = some (make_problem dEasy stepPlus.draws).2 ∧
    (run_loop dEasy 60 [stepPlus] 0 0 0 [] =
       run_loop dEasy 60 []
         (0 + points_for (stepPlus.t1 - stepPlus.t0) true (0 + 1))
         (0 + 1) (0 + 1) ([] ++ [stepPlus.t1 - stepPlus.t0]) ∧
     streak_bonus_mult 1 = 11 / 10) :=
  ⟨by norm_num [stepPlus], rfl, by decide,
   claim_C6 dEasy 60 stepPlus [] 0 0 0 [] "5" (by norm_num [stepPlus]) rfl (by decide)⟩

/-- C9: with `round_seconds = 0` and non-decreasing clock readings, the very
first deadline check fails, so the round asks nothing and returns
`(0, 0, [])`. -/
theorem claim_C9 (d : Difficulty) (c0 : ℚ) (steps : List Step)
    (hrs : d.round_seconds = 0) (hck : clock_ok c0 steps) :
    game_round d c0 steps = (0, 0, []) := by
  cases steps with
  | nil => simp [game_round, run_loop]
  | cons s rest =>
    simp only [clock_ok] at hck
    have h1 : ¬ s.t_loop < c0 + (d.round_seconds : ℚ) := by
      rw [hrs]
      push_cast
      simpa using not_lt.2 hck.1
    simp [game_round, run_loop, h1]

/-- A zero-duration difficulty profile. -/
def dZero : Difficulty := ⟨"Zero", 0, 10, ["+"], 0⟩

theorem claim_C9_witness :
    dZero.round_seconds = 0 ∧ clock_ok 0 [stepPlus] ∧
    game_round dZero 0 [stepPlus] = (0, 0, []) :=
  ⟨rfl, by norm_num [clock_ok, stepPlus],
   claim_C9 dZero 0 [stepPlus] rfl (by norm_num [clock_ok, stepPlus])⟩

theorem run_loop_asked_len (d : Difficulty) (end_time : ℚ) :
    ∀ (steps : List Step) (score : ℤ) (asked streak : ℕ) (times : List ℚ),
      asked = times.length →
      (run_loop d end_time steps score asked streak times).2.1 =
        (run_loop d end_time steps score asked streak times).2.2.length := by
  intro steps
  induction steps with
  | nil =>
    intro score asked streak times h
    simpa [run_loop] using h
  | cons s rest ih =>
    intro score asked streak times h
    by_cases hlt : s.t_loop < end_time
    · cases hin : s.input with
      | none => simp [run_loop, hlt, hin, h]
      | some line =>
        by_cases hc : answer_correct d s.draws line = true
        · simpa [run_loop, hlt, hin, hc] using ih _ _ _ _ (by simp [h])
        · simpa [run_loop, hlt, hin, hc] using ih _ _ _ _ (by simp [h])
    · simp [run_loop, hlt, h]

/-- C10: in every result of `game_round` — deadline expiry, exhausted trace
or interrupt alike — the asked count equals the length of the latency list:
each non-interrupted question appends exactly one latency and adds one to
the count, and an interrupted question contributes neither. -/
theorem claim_C10 (d : Difficulty) (c0 : ℚ) (steps : List Step) :
    (game_round d c0 steps).2.1 = (game_round d c0 steps).2.2.length :=
  run_loop_asked_len d (c0 + (d.round_seconds : ℚ)) steps 0 0 0 [] rfl

end MathSprint
